import Mathlib

/-!
Shallow embedding of the Monte Carlo probability-of-failure estimator from
`appBLOG_1.py`, a Streamlit blog page on probabilistic slope stability.

The floating-point reals of the script are modelled as rationals: every constant in
the script is a decimal literal and all claim-relevant operations are field
operations and order comparisons.  The single source of randomness,
`scipy.stats.beta.rvs(a, b, loc=..., scale=..., size=...)`, draws raw
Beta(a, b) variates in the unit interval and rescales each one affinely to
`loc + scale * x`.  The raw unit-interval draws are made an explicit parameter
`u : List ℚ` of the embedding; the mathematical fact that a Beta variate lies
in `[0, 1]` becomes a hypothesis on `u` where a claim needs it.  The density
curves built for plotting (`beta.pdf` lines, `gaussian_kde` overlays) are
presentation-only outputs that no claim refers to and are not modelled.
-/

namespace SlopeBlog

/-- Slope height `H = 15` (lines 110 and 264; the two blocks are identical). -/
def H : ℚ := 15

/-- Unit weight `gamma = 19` (lines 111 and 265). -/
def gamma : ℚ := 19

/-- Stability number `Ns = 0.181` (lines 112 and 266). -/
def Ns : ℚ := 181 / 1000

/-- Mean undrained strength `SU_MEAN = 70` (lines 113 and 267). -/
def SU_MEAN : ℚ := 70

/-- Monte Carlo sample count `SAMPLES = 10000` (lines 114 and 268). -/
def SAMPLES : ℕ := 10000

/-- Model of `beta.rvs(a, b, loc, scale, size)`: the shape parameters `a`, `b`
govern only the probability law of the raw unit-interval draws `u`; the value
returned for raw draw `x` is the affine rescaling `loc + scale * x`.  The
`size` argument is the length of `u` (hypothesised where a claim needs it). -/
def beta_rvs (a b loc scale : ℚ) (u : List ℚ) : List ℚ :=
  u.map (fun x => loc + scale * x)

/-- Model of `np.mean` of a one-dimensional array: sum divided by length. -/
def np_mean (l : List ℚ) : ℚ := l.sum / (l.length : ℚ)

/-- Model of `np.sum(arr < 1.0)`: the number of entries strictly below 1. -/
def count_lt_one (l : List ℚ) : ℕ := l.countP (fun f => decide (f < 1))

/-- Line 117: `std_dev = cov * SU_MEAN`. -/
def std_dev (cov : ℚ) : ℚ := cov * SU_MEAN

/-- Line 118: `width = std_dev * 6`. -/
def width (cov : ℚ) : ℚ := std_dev cov * 6

/-- Line 119: `low_su = SU_MEAN - width/2`. -/
def low_su (cov : ℚ) : ℚ := SU_MEAN - width cov / 2

/-- Line 120: `high_su = SU_MEAN + width/2`. -/
def high_su (cov : ℚ) : ℚ := SU_MEAN + width cov / 2

/-- Line 121: `mode_su = SU_MEAN`. -/
def mode_su : ℚ := SU_MEAN

/-- Line 123: `alpha = 1 + 4 * (mode_su - low_su) / (high_su - low_su)`. -/
def alpha (cov : ℚ) : ℚ :=
  1 + 4 * (mode_su - low_su cov) / (high_su cov - low_su cov)

/-- Line 124: `beta_param = 1 + 4 * (high_su - mode_su) / (high_su - low_su)`. -/
def beta_param (cov : ℚ) : ℚ :=
  1 + 4 * (high_su cov - mode_su) / (high_su cov - low_su cov)

/-- Line 126: `su_samples = beta.rvs(alpha, beta_param, loc=low_su,
scale=width, size=SAMPLES)`. -/
def su_samples (cov : ℚ) (u : List ℚ) : List ℚ :=
  beta_rvs (alpha cov) (beta_param cov) (low_su cov) (width cov) u

/-- Line 129: `fs_samples = su_samples / (Ns * gamma * H)`, the numpy
element-wise division of the strength sample by the scalar capacity. -/
def fs_samples (cov : ℚ) (u : List ℚ) : List ℚ :=
  (su_samples cov u).map (fun s => s / (Ns * gamma * H))

/-- The claim-relevant outputs of `run_analysis` (lines 144-145); the density
curve outputs (`su_x_line`, `su_y_freq`, `mean_su_freq`, `fs_line`,
`fs_kde_freq`, `mean_fs_freq`) are plotting-only and omitted. -/
structure AnalysisResult where
  su_samples : List ℚ
  actual_mean_su : ℚ
  fs_samples : List ℚ
  mean_fs_val : ℚ
  pf : ℚ
  low_su : ℚ
  high_su : ℚ
  deriving DecidableEq

/-- Function `run_analysis(cov)` (lines 116-145; repeated verbatim at lines
270-299 for
figure 2), with the raw Beta draws `u` passed explicitly:
`actual_mean_su = np.mean(su_samples)` (line 127),
`pf = np.sum(fs_samples < 1.0) / SAMPLES` (line 130),
`mean_fs_val = np.mean(fs_samples)` (line 131). -/
def run_analysis (cov : ℚ) (u : List ℚ) : AnalysisResult :=
  { su_samples := su_samples cov u
    actual_mean_su := np_mean (su_samples cov u)
    fs_samples := fs_samples cov u
    mean_fs_val := np_mean (fs_samples cov u)
    pf := (count_lt_one (fs_samples cov u) : ℚ) / (SAMPLES : ℚ)
    low_su := low_su cov
    high_su := high_su cov }

/-- Python runtime outcomes relevant to input validation.  The script has no
validation of its own; `invalidParameter` exists only so the guard demanded by
the specification can be stated; `zeroDivisionError` models the
`ZeroDivisionError` Python raises on float division by `0.0`; `valueError`
models the `ValueError` the scipy distribution machinery raises when
`beta.rvs` is called with arguments outside its domain (`scale < 0`). -/
inductive PyError where
  | invalidParameter
  | zeroDivisionError
  | valueError
  deriving DecidableEq

/-- Variant of `run_analysis` with its Python partiality made explicit, in
evaluation order: evaluating `alpha` (line 123) divides the plain float
`mode_su - low_su` by `high_su - low_su`, which raises `ZeroDivisionError`
when that denominator is zero (exactly when `cov = 0`, since
`width = cov * 70 * 6`); then `beta.rvs` (line 126) checks its domain and
raises `ValueError` when `scale = width < 0` (the case `cov < 0`); no
parameter check of the function itself exists anywhere. -/
def run_analysisE (cov : ℚ) (u : List ℚ) : Except PyError AnalysisResult :=
  if high_su cov - low_su cov = 0 then Except.error PyError.zeroDivisionError
  else if width cov < 0 then Except.error PyError.valueError
  else Except.ok (run_analysis cov u)

/-- Shape parameters of the fixed-shape variant: the literals `4, 4` passed to
`beta.rvs` at line 460. -/
def fixed_alpha : ℚ := 4

/-- Second fixed shape literal `4` at line 460. -/
def fixed_beta : ℚ := 4

/-- The tuple returned by `calculate_data` (line 464). -/
structure CalcData where
  samples : List ℚ
  fs : List ℚ
  pf : ℚ
  mean_fs : ℚ
  low : ℚ
  high : ℚ
  w : ℚ
  deriving DecidableEq

/-- Function `calculate_data(mean, cov, Ns, H, gamma, SAMPLES)`
(lines 456-464), with
the raw Beta draws `u` passed explicitly.  The parameters shadow the
module-level constants, exactly as in the Python function. -/
def calculate_data (mean cov Ns H gamma : ℚ) (SAMPLES : ℕ) (u : List ℚ) :
    CalcData :=
  let std := cov * mean
  let w := std * 6
  let low := mean - w / 2
  let high := mean + w / 2
  let samples := beta_rvs fixed_alpha fixed_beta low w u
  let fs := samples.map (fun s => s / (Ns * gamma * H))
  let pf := (count_lt_one fs : ℚ) / (SAMPLES : ℚ)
  let mean_fs := np_mean fs
  { samples := samples, fs := fs, pf := pf, mean_fs := mean_fs,
    low := low, high := high, w := w }

/-- Figure 3 slope height `H = 12` (line 440, rebinding the module name). -/
def H3 : ℚ := 12

/-- Figure 3 unit weight `gamma = 19` (line 441). -/
def gamma3 : ℚ := 19

/-- Line 442: `Ns1 = 0.181`. -/
def Ns1 : ℚ := 181 / 1000

/-- Line 443: `Ns2 = 0.181`. -/
def Ns2 : ℚ := 181 / 1000

/-- Figure 3 sample count `SAMPLES = 10000` (line 444). -/
def SAMPLES3 : ℕ := 10000

/-- Figure 3 scenario 1 call site (line 467):
`calculate_data(65, cov1, Ns1, H, gamma, SAMPLES)`. -/
def scenario1 (cov1 : ℚ) (u : List ℚ) : CalcData :=
  calculate_data 65 cov1 Ns1 H3 gamma3 SAMPLES3 u

/-- Figure 3 scenario 2 call site (line 468):
`calculate_data(55, cov2, Ns2, H, gamma, SAMPLES)`. -/
def scenario2 (cov2 : ℚ) (u : List ℚ) : CalcData :=
  calculate_data 55 cov2 Ns2 H3 gamma3 SAMPLES3 u

/-! ## Helper lemmas -/

theorem width_pos {cov : ℚ} (hc : 0 < cov) : 0 < width cov := by
  unfold width std_dev SU_MEAN
  positivity

theorem high_sub_low (cov : ℚ) : high_su cov - low_su cov = width cov := by
  unfold high_su low_su
  ring

theorem alpha_eq_three {cov : ℚ} (hc : 0 < cov) : alpha cov = 3 := by
  have hw : width cov ≠ 0 := (width_pos hc).ne'
  unfold alpha mode_su low_su high_su at *
  field_simp
  unfold width std_dev SU_MEAN at *
  ring

theorem beta_param_eq_three {cov : ℚ} (hc : 0 < cov) : beta_param cov = 3 := by
  have hw : width cov ≠ 0 := (width_pos hc).ne'
  unfold beta_param mode_su low_su high_su at *
  field_simp
  unfold width std_dev SU_MEAN at *
  ring

theorem sum_map_div (l : List ℚ) (c : ℚ) :
    (l.map (fun x => x / c)).sum = l.sum / c := by
  induction l with
  | nil => simp
  | cons a t ih => simp [ih, add_div]

/-! ## Claims -/

/-- C3: for every meanValue > 0 and coefficientOfVariation > 0, the derived
parameters satisfy standardDeviation = cov * mean, supportWidth = 6 * std,
lowerBound = mean - width/2, upperBound = mean + width/2, and the invariant
lowerBound < mean < upperBound with supportWidth > 0 holds — stated both for
the generic `calculate_data` derivation and for the `run_analysis`
specialisation at mean = SU_MEAN. -/
theorem C3_distribution_parameters (mean cov : ℚ) (hm : 0 < mean)
    (hc : 0 < cov) :
    (∀ (n : ℚ) (h g : ℚ) (k : ℕ) (u : List ℚ),
      (calculate_data mean cov n h g k u).w = 6 * (cov * mean)
      ∧ (calculate_data mean cov n h g k u).low =
          mean - (calculate_data mean cov n h g k u).w / 2
      ∧ (calculate_data mean cov n h g k u).high =
          mean + (calculate_data mean cov n h g k u).w / 2
      ∧ (calculate_data mean cov n h g k u).low < mean
      ∧ mean < (calculate_data mean cov n h g k u).high
      ∧ 0 < (calculate_data mean cov n h g k u).w)
    ∧ std_dev cov = cov * SU_MEAN
    ∧ width cov = 6 * std_dev cov
    ∧ low_su cov = SU_MEAN - width cov / 2
    ∧ high_su cov = SU_MEAN + width cov / 2
    ∧ low_su cov < SU_MEAN
    ∧ SU_MEAN < high_su cov
    ∧ 0 < width cov := by
  have hw : 0 < cov * mean * 6 := by positivity
  have hw70 : 0 < width cov := width_pos hc
  refine ⟨fun n h g k u => ?_, rfl, by unfold width; ring, rfl, rfl, ?_, ?_, hw70⟩
  · refine ⟨by simp [calculate_data]; ring, by simp [calculate_data],
      by simp [calculate_data], ?_, ?_, by simpa [calculate_data] using hw⟩
    · simp only [calculate_data]
      linarith
    · simp only [calculate_data]
      linarith
  · unfold low_su
    linarith
  · unfold high_su
    linarith

/-- Witness for C3 at mean = 70, cov = 0.15. -/
theorem C3_distribution_parameters_witness :
    (0 : ℚ) < 70 ∧ (0 : ℚ) < 15 / 100 ∧
      (low_su (15 / 100) < SU_MEAN ∧ SU_MEAN < high_su (15 / 100)) :=
  ⟨by norm_num, by norm_num,
    ((C3_distribution_parameters 70 (15 / 100) (by norm_num)
      (by norm_num)).2.2.2.2.2).1,
    ((C3_distribution_parameters 70 (15 / 100) (by norm_num)
      (by norm_num)).2.2.2.2.2).2.1⟩

/-- C4: in the PERT shape mode the shape parameters are
alpha = 1 + 4*(mode - lowerBound)/supportWidth and
beta = 1 + 4*(upperBound - mode)/supportWidth with mode = meanValue; in the
fixed shape mode both are 4; in both modes the shape parameters are
positive. -/
theorem C4_shape_parameters (cov : ℚ) (hc : 0 < cov) :
    alpha cov = 1 + 4 * (mode_su - low_su cov) / width cov
    ∧ beta_param cov = 1 + 4 * (high_su cov - mode_su) / width cov
    ∧ mode_su = SU_MEAN
    ∧ 0 < alpha cov
    ∧ 0 < beta_param cov
    ∧ fixed_alpha = 4
    ∧ fixed_beta = 4
    ∧ 0 < fixed_alpha
    ∧ 0 < fixed_beta := by
  refine ⟨?_, ?_, rfl, ?_, ?_, rfl, rfl, by norm_num [fixed_alpha],
    by norm_num [fixed_beta]⟩
  · rw [alpha, high_sub_low]
  · rw [beta_param, high_sub_low]
  · rw [alpha_eq_three hc]
    norm_num
  · rw [beta_param_eq_three hc]
    norm_num

/-- Witness for C4 at cov = 0.15. -/
theorem C4_shape_parameters_witness :
    (0 : ℚ) < 15 / 100 ∧ 0 < alpha (15 / 100) ∧ 0 < beta_param (15 / 100) :=
  ⟨by norm_num, (C4_shape_parameters (15 / 100) (by norm_num)).2.2.2.1,
    (C4_shape_parameters (15 / 100) (by norm_num)).2.2.2.2.1⟩

/-- C10: in the PERT shape mode with mode = meanValue (as at both PERT call
sites, which run the same `run_analysis` body), the derived shape parameters
are exactly alpha = beta = 3 for every cov > 0, so the sampling distribution
is symmetric about the mean and never uses the fixed-mode value 4. -/
theorem C10_pert_shapes_are_three (cov : ℚ) (hc : 0 < cov) :
    alpha cov = 3
    ∧ beta_param cov = 3
    ∧ alpha cov = beta_param cov
    ∧ alpha cov ≠ fixed_alpha
    ∧ beta_param cov ≠ fixed_beta := by
  have ha := alpha_eq_three hc
  have hb := beta_param_eq_three hc
  refine ⟨ha, hb, ha.trans hb.symm, ?_, ?_⟩
  · rw [ha]
    norm_num [fixed_alpha]
  · rw [hb]
    norm_num [fixed_beta]

/-- Witness for C10 at cov = 0.2. -/
theorem C10_pert_shapes_are_three_witness :
    (0 : ℚ) < 2 / 10 ∧ alpha (2 / 10) = 3 ∧ beta_param (2 / 10) = 3 :=
  ⟨by norm_num, (C10_pert_shapes_are_three (2 / 10) (by norm_num)).1,
    (C10_pert_shapes_are_three (2 / 10) (by norm_num)).2.1⟩

theorem np_mean_map_div (l : List ℚ) (c : ℚ) :
    np_mean (l.map (fun x => x / c)) = np_mean l / c := by
  unfold np_mean
  rw [sum_map_div, List.length_map, div_div, div_div, mul_comm]

/-- C1: for valid inputs (cov > 0, sampleCount > 0), probabilityOfFailure is
the number of safety-factor samples strictly below 1 divided by the sample
count, and meanSafetyFactor is the arithmetic average of the safety-factor
samples; both are functions of the sample set of that invocation alone — stated
for `run_analysis` (whose sample count is the constant SAMPLES) and for
`calculate_data` (whose sample count is the parameter k). -/
theorem C1_failure_statistic (cov : ℚ) (u : List ℚ) (hc : 0 < cov)
    (hlen : u.length = SAMPLES) :
    ((run_analysis cov u).pf =
        (count_lt_one (run_analysis cov u).fs_samples : ℚ) /
          ((run_analysis cov u).fs_samples.length : ℚ)
      ∧ (run_analysis cov u).mean_fs_val =
        (run_analysis cov u).fs_samples.sum /
          ((run_analysis cov u).fs_samples.length : ℚ))
    ∧ ∀ (mean n h g : ℚ) (k : ℕ) (v : List ℚ), 0 < k → v.length = k →
        (calculate_data mean cov n h g k v).pf =
          (count_lt_one (calculate_data mean cov n h g k v).fs : ℚ) /
            ((calculate_data mean cov n h g k v).fs.length : ℚ)
        ∧ (calculate_data mean cov n h g k v).mean_fs =
          (calculate_data mean cov n h g k v).fs.sum /
            ((calculate_data mean cov n h g k v).fs.length : ℚ) := by
  constructor
  · constructor
    · simp [run_analysis, fs_samples, su_samples, beta_rvs, hlen]
    · simp [run_analysis, np_mean]
  · intro mean n h g k v hk hvk
    constructor
    · simp [calculate_data, beta_rvs, hvk]
    · simp [calculate_data, np_mean]

/-- Witness for C1 at cov = 0.15 with 10000 raw draws of 1/2. -/
theorem C1_failure_statistic_witness :
    (0 : ℚ) < 15 / 100
    ∧ (List.replicate SAMPLES (1 / 2 : ℚ)).length = SAMPLES
    ∧ (run_analysis (15 / 100) (List.replicate SAMPLES (1 / 2))).pf =
        (count_lt_one
          (run_analysis (15 / 100) (List.replicate SAMPLES (1 / 2))).fs_samples : ℚ) /
          ((run_analysis (15 / 100)
            (List.replicate SAMPLES (1 / 2))).fs_samples.length : ℚ) :=
  ⟨by norm_num, by simp,
    (C1_failure_statistic (15 / 100) (List.replicate SAMPLES (1 / 2))
      (by norm_num) (by simp)).1.1⟩

/-- C2: each safety-factor value is the corresponding strength value divided
by the capacity constant stabilityNumber * unitWeight * slopeHeight; the
safety-factor set has the same cardinality as the strength sample set; and
with all-positive strength samples and positive capacity every safety-factor
value is positive — stated for `run_analysis` (where capacity
Ns * gamma * H = 51.585 > 0 is fixed) and for `calculate_data`. -/
theorem C2_elementwise_quotient (cov : ℚ) (u : List ℚ) :
    (run_analysis cov u).fs_samples =
        (run_analysis cov u).su_samples.map (fun s => s / (Ns * gamma * H))
    ∧ (run_analysis cov u).fs_samples.length =
        (run_analysis cov u).su_samples.length
    ∧ ((∀ s ∈ (run_analysis cov u).su_samples, 0 < s) →
        ∀ f ∈ (run_analysis cov u).fs_samples, 0 < f)
    ∧ ∀ (mean n h g : ℚ) (k : ℕ) (v : List ℚ),
        (calculate_data mean cov n h g k v).fs =
          (calculate_data mean cov n h g k v).samples.map
            (fun s => s / (n * g * h))
        ∧ (calculate_data mean cov n h g k v).fs.length =
            (calculate_data mean cov n h g k v).samples.length
        ∧ (0 < n * g * h →
            (∀ s ∈ (calculate_data mean cov n h g k v).samples, 0 < s) →
            ∀ f ∈ (calculate_data mean cov n h g k v).fs, 0 < f) := by
  have hcap : (0 : ℚ) < Ns * gamma * H := by norm_num [Ns, gamma, H]
  refine ⟨rfl, by simp [run_analysis, fs_samples], ?_, ?_⟩
  · intro hpos f hf
    simp only [run_analysis, fs_samples, List.mem_map] at hf
    obtain ⟨s, hs, rfl⟩ := hf
    exact div_pos (hpos s hs) hcap
  · intro mean n h g k v
    refine ⟨rfl, by simp [calculate_data], ?_⟩
    intro hcap2 hpos f hf
    simp only [calculate_data, List.mem_map] at hf
    obtain ⟨s, hs, rfl⟩ := hf
    exact div_pos (hpos s hs) hcap2

/-- Witness for C2 at cov = 0.15 with the single raw draw 1/2, whose strength
sample is the one-element list [70]. -/
theorem C2_elementwise_quotient_witness :
    (run_analysis (15 / 100) [1 / 2]).su_samples = [70]
    ∧ (0 : ℚ) < 70 / (Ns * gamma * H) := by
  have hsu : (run_analysis (15 / 100) [1 / 2]).su_samples = [70] := by
    norm_num [run_analysis, su_samples, beta_rvs, low_su, width, std_dev,
      SU_MEAN]
  have hfs : (run_analysis (15 / 100) [1 / 2]).fs_samples =
      [70 / (Ns * gamma * H)] := by
    norm_num [run_analysis, fs_samples, su_samples, beta_rvs, low_su, width,
      std_dev, SU_MEAN, Ns, gamma, H]
  refine ⟨hsu, ?_⟩
  apply (C2_elementwise_quotient (15 / 100) [1 / 2]).2.2.1
  · rw [hsu]
    intro s hs
    rw [List.mem_singleton] at hs
    subst hs
    norm_num
  · rw [hfs]
    exact List.mem_singleton_self _

/-- C9: the returned meanSafetyFactor is exactly the realized mean of the
strength sample divided by the (positive) capacity constant — linearity of
the empirical mean under element-wise division — stated for both
`run_analysis` and `calculate_data`. -/
theorem C9_mean_linearity (cov : ℚ) (u : List ℚ)
    (hcap : 0 < Ns * gamma * H) :
    (run_analysis cov u).mean_fs_val =
      (run_analysis cov u).actual_mean_su / (Ns * gamma * H)
    ∧ ∀ (mean n h g : ℚ) (k : ℕ) (v : List ℚ), 0 < n * g * h →
        (calculate_data mean cov n h g k v).mean_fs =
          np_mean (calculate_data mean cov n h g k v).samples / (n * g * h) := by
  constructor
  · simpa [run_analysis, fs_samples] using
      np_mean_map_div (su_samples cov u) (Ns * gamma * H)
  · intro mean n h g k v hc2
    simpa [calculate_data] using
      np_mean_map_div (beta_rvs fixed_alpha fixed_beta
        (mean - cov * mean * 6 / 2) (cov * mean * 6) v) (n * g * h)

/-- Witness for C9 at cov = 0.15, empty draw list. -/
theorem C9_mean_linearity_witness :
    (0 : ℚ) < Ns * gamma * H
    ∧ (run_analysis (15 / 100) []).mean_fs_val =
        (run_analysis (15 / 100) []).actual_mean_su / (Ns * gamma * H) :=
  ⟨by norm_num [Ns, gamma, H],
    (C9_mean_linearity (15 / 100) [] (by norm_num [Ns, gamma, H])).1⟩

theorem beta_rvs_mem_bounds (a b loc scale : ℚ) (hs : 0 ≤ scale)
    (u : List ℚ) (hu : ∀ x ∈ u, 0 ≤ x ∧ x ≤ 1) :
    ∀ s ∈ beta_rvs a b loc scale u, loc ≤ s ∧ s ≤ loc + scale := by
  intro s hsm
  rw [beta_rvs, List.mem_map] at hsm
  obtain ⟨x, hx, rfl⟩ := hsm
  obtain ⟨hx0, hx1⟩ := hu x hx
  constructor
  · nlinarith
  · nlinarith

/-- C6: for cov in (0, 1) and any draw whose raw Beta variates lie in the
unit interval, every generated strength sample lies within
[lowerBound, upperBound] — stated for `run_analysis` and, given a positive
mean, for `calculate_data`. -/
theorem C6_bounded_support (cov : ℚ) (u : List ℚ) (h0 : 0 < cov)
    (h1 : cov < 1) (hu : ∀ x ∈ u, 0 ≤ x ∧ x ≤ 1) :
    (∀ s ∈ (run_analysis cov u).su_samples,
      (run_analysis cov u).low_su ≤ s ∧ s ≤ (run_analysis cov u).high_su)
    ∧ ∀ (mean n h g : ℚ) (k : ℕ), 0 < mean →
        ∀ s ∈ (calculate_data mean cov n h g k u).samples,
          (calculate_data mean cov n h g k u).low ≤ s
          ∧ s ≤ (calculate_data mean cov n h g k u).high := by
  constructor
  · intro s hsm
    have hb := beta_rvs_mem_bounds (alpha cov) (beta_param cov) (low_su cov)
      (width cov) (width_pos h0).le u hu s hsm
    have hhl : low_su cov + width cov = high_su cov := by
      have := high_sub_low cov
      linarith
    simp only [run_analysis]
    exact ⟨hb.1, hhl ▸ hb.2⟩
  · intro mean n h g k hm s hsm
    have hw : (0 : ℚ) ≤ cov * mean * 6 := by positivity
    have hb := beta_rvs_mem_bounds fixed_alpha fixed_beta
      (mean - cov * mean * 6 / 2) (cov * mean * 6) hw u hu s hsm
    simp only [calculate_data]
    refine ⟨hb.1, ?_⟩
    have := hb.2
    linarith

/-- Witness for C6 at cov = 0.15 with the single raw draw 1/2. -/
theorem C6_bounded_support_witness :
    (run_analysis (15 / 100) [1 / 2]).low_su ≤ 70
    ∧ (70 : ℚ) ≤ (run_analysis (15 / 100) [1 / 2]).high_su := by
  have hsu : (70 : ℚ) ∈ (run_analysis (15 / 100) [1 / 2]).su_samples := by
    have : (run_analysis (15 / 100) [1 / 2]).su_samples = [70] := by
      norm_num [run_analysis, su_samples, beta_rvs, low_su, width, std_dev,
        SU_MEAN]
    rw [this]
    exact List.mem_singleton_self _
  exact (C6_bounded_support (15 / 100) [1 / 2] (by norm_num) (by norm_num)
    (by norm_num)).1 70 hsu

/-- C7: holding the mean and the geometry constants fixed (they are module
constants of `run_analysis`), and assuming the nominal safety factor
SU_MEAN / (Ns * gamma * H) exceeds 1, probabilityOfFailure is monotonically
non-decreasing in the coefficient of variation: for the same raw draws,
0 < cov1 ≤ cov2 implies pf(cov1) ≤ pf(cov2). -/
theorem C7_pf_monotone (u : List ℚ) (cov1 cov2 : ℚ) (h1 : 0 < cov1)
    (h12 : cov1 ≤ cov2) (hfs : 1 < SU_MEAN / (Ns * gamma * H)) :
    (run_analysis cov1 u).pf ≤ (run_analysis cov2 u).pf := by
  have hcap : (0 : ℚ) < Ns * gamma * H := by norm_num [Ns, gamma, H]
  have hlt : Ns * gamma * H < SU_MEAN := (one_lt_div hcap).mp hfs
  have hcount : count_lt_one (fs_samples cov1 u) ≤
      count_lt_one (fs_samples cov2 u) := by
    unfold count_lt_one fs_samples su_samples beta_rvs
    rw [List.countP_map, List.countP_map, List.countP_map, List.countP_map]
    apply List.countP_mono_left
    intro x hx hp
    simp only [Function.comp_apply, decide_eq_true_eq] at hp ⊢
    rw [div_lt_one hcap] at hp ⊢
    unfold low_su width std_dev SU_MEAN at hp ⊢
    unfold SU_MEAN at hlt
    have hx2 : cov1 * (420 * x - 210) < 0 := by nlinarith
    have ht : 420 * x - 210 < 0 := by
      by_contra hge
      push_neg at hge
      nlinarith [mul_nonneg h1.le hge]
    have h2 : cov2 * (420 * x - 210) ≤ cov1 * (420 * x - 210) :=
      mul_le_mul_of_nonpos_right h12 ht.le
    nlinarith
  have hcast : (count_lt_one (fs_samples cov1 u) : ℚ) ≤
      (count_lt_one (fs_samples cov2 u) : ℚ) := by
    exact_mod_cast hcount
  simp only [run_analysis]
  gcongr

/-- Witness for C7 at cov1 = 0.1, cov2 = 0.2, empty draw list. -/
theorem C7_pf_monotone_witness :
    (0 : ℚ) < 1 / 10 ∧ (1 / 10 : ℚ) ≤ 2 / 10
    ∧ (1 : ℚ) < SU_MEAN / (Ns * gamma * H)
    ∧ (run_analysis (1 / 10) []).pf ≤ (run_analysis (2 / 10) []).pf :=
  ⟨by norm_num, by norm_num, by norm_num [SU_MEAN, Ns, gamma, H],
    C7_pf_monotone [] (1 / 10) (2 / 10) (by norm_num) (by norm_num)
      (by norm_num [SU_MEAN, Ns, gamma, H])⟩

/-- C5 counterexample: at the concrete input cov = 0 the estimator does not
fail with an InvalidParameter condition — it raises ZeroDivisionError (a
numerical error) from the shape-parameter division, returning no result at
all, degenerate or otherwise. -/
theorem C5_counterexample :
    run_analysisE 0 [] = Except.error PyError.zeroDivisionError
    ∧ run_analysisE 0 [] ≠ Except.error PyError.invalidParameter := by
  have hz : high_su 0 - low_su 0 = 0 := by
    norm_num [high_su, low_su, width, std_dev]
  have h : run_analysisE 0 [] = Except.error PyError.zeroDivisionError := by
    simp [run_analysisE, hz]
  refine ⟨h, ?_⟩
  rw [h]
  simp

/-- C5 amended: the code performs no input validation: no InvalidParameter
condition is ever signalled for any input.  At cov = 0 the shape-parameter
division raises ZeroDivisionError (a numerical error) for every draw list,
instead of a rejection or a degenerate point-mass result; at cov < 0 the
scipy sampler rejects the negative scale with ValueError; for cov > 0 the
call returns normally with no check; and the sample count is the fixed
positive constant 10000, never checked. -/
theorem C5_no_guard_division_error :
    (∀ u : List ℚ, run_analysisE 0 u = Except.error PyError.zeroDivisionError)
    ∧ (∀ (cov : ℚ) (u : List ℚ),
      run_analysisE cov u ≠ Except.error PyError.invalidParameter)
    ∧ (∀ (cov : ℚ) (u : List ℚ), cov < 0 →
      run_analysisE cov u = Except.error PyError.valueError)
    ∧ (∀ (cov : ℚ) (u : List ℚ), 0 < cov →
      run_analysisE cov u = Except.ok (run_analysis cov u))
    ∧ SAMPLES = 10000 := by
  have hw : ∀ cov : ℚ, width cov = 420 * cov := by
    intro cov
    unfold width std_dev SU_MEAN
    ring
  refine ⟨fun u => ?_, fun cov u => ?_, fun cov u hneg => ?_,
    fun cov u hpos => ?_, rfl⟩
  · have h0 : high_su 0 - low_su 0 = 0 := by
      rw [high_sub_low, hw]
      ring
    simp [run_analysisE, h0]
  · unfold run_analysisE
    split_ifs <;> simp
  · have hwn : width cov < 0 := by
      rw [hw]
      linarith
    unfold run_analysisE
    rw [high_sub_low, if_neg hwn.ne, if_pos hwn]
  · have hwp : 0 < width cov := width_pos hpos
    unfold run_analysisE
    rw [high_sub_low, if_neg hwp.ne', if_neg (not_lt.mpr hwp.le)]

/-- Witness for the amended C5 at cov = 0, cov = -1 and cov = 0.15. -/
theorem C5_no_guard_division_error_witness :
    run_analysisE 0 [] = Except.error PyError.zeroDivisionError
    ∧ ((-1 : ℚ) < 0
      ∧ run_analysisE (-1) [] = Except.error PyError.valueError)
    ∧ ((0 : ℚ) < 15 / 100
      ∧ run_analysisE (15 / 100) [] =
          Except.ok (run_analysis (15 / 100) [])) :=
  ⟨C5_no_guard_division_error.1 [],
    ⟨by norm_num, C5_no_guard_division_error.2.2.1 (-1) [] (by norm_num)⟩,
    ⟨by norm_num,
      C5_no_guard_division_error.2.2.2.1 (15 / 100) [] (by norm_num)⟩⟩

/-- C8: the estimator call sites use sampleCount 10000, unitWeight 19,
stabilityNumber 0.181 throughout, slopeHeight 15 for figures 1 and 2 and 12
for figure 3, and mean 70 (figures 1 and 2, via the SU_MEAN constant of
`run_analysis`), 65 (figure 3 scenario 1), or 55 (figure 3 scenario 2). -/
theorem C8_call_site_constants :
    SAMPLES = 10000 ∧ gamma = 19 ∧ Ns = 181 / 1000 ∧ H = 15 ∧ SU_MEAN = 70
    ∧ SAMPLES3 = 10000 ∧ gamma3 = 19 ∧ Ns1 = 181 / 1000 ∧ Ns2 = 181 / 1000
    ∧ H3 = 12
    ∧ (∀ (cov : ℚ) (u : List ℚ),
        scenario1 cov u = calculate_data 65 cov (181 / 1000) 12 19 10000 u)
    ∧ (∀ (cov : ℚ) (u : List ℚ),
        scenario2 cov u = calculate_data 55 cov (181 / 1000) 12 19 10000 u) :=
  ⟨rfl, rfl, rfl, rfl, rfl, rfl, rfl, rfl, rfl, rfl,
    fun _ _ => rfl, fun _ _ => rfl⟩

end SlopeBlog
